import Mathlib

/-!
Shallow embedding of the korgs program library: a per-owner counter program
and a per-owner SOL vault program. Account data is modelled as `List Nat`
(each entry one byte), lamport balances as `Nat`, and the host's rent
calculator as an abstract function `rentMin : Nat → Nat`. Machine `u64`
arithmetic is modelled on `Nat` with explicit saturation at `2^64 - 1`
(Rust's `saturating_add` / `saturating_sub`).
-/

namespace Korgs

/-- 2^64, the modulus of Rust's `u64`. -/
def U64_MOD : Nat := 18446744073709551616

/-- `u64::MAX`. -/
def U64_MAX : Nat := 18446744073709551615

/-- Rust `u64::saturating_add` on the `Nat` model (inputs below `U64_MOD`). -/
def saturatingAdd64 (a b : Nat) : Nat := min (a + b) U64_MAX

/-- Little-endian encoding of a `u64` into 8 bytes, as wincode writes a
fixed-layout `u64` field. -/
def u64ToLeBytes (n : Nat) : List Nat :=
  [n % 256, n / 256 % 256, n / 65536 % 256, n / 16777216 % 256,
   n / 4294967296 % 256, n / 1099511627776 % 256,
   n / 281474976710656 % 256, n / 72057594037927936 % 256]

/-- Little-endian decoding of 8 bytes into a `u64` value. -/
def leBytesToU64 : List Nat → Nat
  | [b0, b1, b2, b3, b4, b5, b6, b7] =>
      b0 + b1 * 256 + b2 * 65536 + b3 * 16777216 + b4 * 4294967296 +
        b5 * 1099511627776 + b6 * 281474976710656 + b7 * 72057594037927936
  | _ => 0

/-- `AccountInfo::resize`: truncate to `n` bytes, or grow zero-filled. -/
def resizeList (l : List Nat) (n : Nat) : List Nat :=
  if n ≤ l.length then l.take n else l ++ List.replicate (n - l.length) 0

/-- One validation-pipeline check as the spec describes it: a pass/fail
outcome paired with the error reported when it fails. -/
structure NamedCheck (ε : Type) where
  passes : Bool
  failure : ε

/-- The spec's tie-break policy: run the checks in order and return the
first failing check's error, with no aggregation. -/
def firstFailure {ε : Type} : List (NamedCheck ε) → Except ε Unit
  | [] => .ok ()
  | c :: cs => if c.passes then firstFailure cs else .error c.failure

/-- An account as a Solana instruction sees it: address, flags, the program
that owns it, its data buffer and its lamport balance. -/
structure AccountMeta where
  key : List Nat
  isSigner : Bool
  isWritable : Bool
  ownerProgram : List Nat
  data : List Nat
  lamports : Nat
deriving DecidableEq

/-- `pinocchio_system::ID`, the system program's address (32 zero bytes). -/
def systemProgramID : List Nat := List.replicate 32 0

namespace CounterProg

/-- `pinocchio_counter_program::state::DEACTIVATED_ACCOUNT_SIZE`. -/
def DEACTIVATED_ACCOUNT_SIZE : Nat := 1

/-- `pinocchio_counter_program::AccountDiscriminator`. -/
inductive AccountDiscriminator where
  | counterV1Account
  | deactivatedAccount
deriving DecidableEq

/-- `impl From<AccountDiscriminator> for u8`. -/
def AccountDiscriminator.toU8 : AccountDiscriminator → Nat
  | .counterV1Account => 1
  | .deactivatedAccount => 255

/-- `impl TryFrom<u8> for AccountDiscriminator` (the closed tag set {1, 255}). -/
def AccountDiscriminator.fromU8 (byte : Nat) : Option AccountDiscriminator :=
  if byte = 1 then some .counterV1Account
  else if byte = 255 then some .deactivatedAccount
  else none

/-- `pinocchio_counter_program::AccountDiscriminatorError`. -/
inductive AccountDiscriminatorError where
  | missing
  | discriminatorMismatch (expected observed : AccountDiscriminator)
  | serializedSizeMismatch (expected observed : Nat)
  | invalid (byte : Nat)
deriving DecidableEq

/-- `pinocchio_counter_program::state::CounterV1`:
`[discriminator:1][owner:32][bump:1][count:8][reserved:31]`. -/
structure CounterV1 where
  discriminator : AccountDiscriminator
  owner : List Nat
  bump : Nat
  count : Nat
  reserved : List Nat
deriving DecidableEq

/-- `CounterV1::size()`: 1 + 32 + 1 + 8 + 31 = 73 bytes. -/
def CounterV1.size : Nat := 73

/-- The account size implied by a discriminator
(`AccountDiscriminator::expected_account_size`). -/
def AccountDiscriminator.expectedAccountSize : AccountDiscriminator → Nat
  | .counterV1Account => CounterV1.size
  | .deactivatedAccount => 1

/-- `AccountDiscriminator::check` (account_discriminator.rs): leading byte
present, in the closed tag set, equal to the expected kind, and the buffer
exactly the expected kind's size. -/
def AccountDiscriminator.check (expected : AccountDiscriminator) (data : List Nat) :
    Except AccountDiscriminatorError Unit :=
  match data.head? with
  | none => .error .missing
  | some b =>
    match AccountDiscriminator.fromU8 b with
    | none => .error (.invalid b)
    | some observed =>
      if observed ≠ expected then
        .error (.discriminatorMismatch expected observed)
      else if data.length ≠ expected.expectedAccountSize then
        .error (.serializedSizeMismatch expected.expectedAccountSize data.length)
      else .ok ()

/-- `CounterV1::serialize` (wincode fixed layout, fields in declaration
order, `count` little-endian). -/
def CounterV1.serialize (r : CounterV1) : List Nat :=
  r.discriminator.toU8 :: (r.owner ++ r.bump :: (u64ToLeBytes r.count ++ r.reserved))

/-- `CounterV1::deserialize` (wincode fixed layout reader): needs at least
`size` bytes, the tag must be in the closed set, then each field is read at
its fixed offset. -/
def CounterV1.deserialize (data : List Nat) : Option CounterV1 :=
  if data.length < CounterV1.size then none
  else
    match AccountDiscriminator.fromU8 (data.headD 0) with
    | none => none
    | some d =>
      some { discriminator := d
           , owner := (data.drop 1).take 32
           , bump := (data.drop 33).headD 0
           , count := leBytesToU64 ((data.drop 34).take 8)
           , reserved := (data.drop 42).take 31 }

/-- Well-formedness of the in-memory record as Rust's types give it:
fixed-size byte arrays and a `u64` count. -/
def CounterV1.wf (r : CounterV1) : Prop :=
  r.owner.length = 32 ∧ r.reserved.length = 31 ∧ r.count < U64_MOD

/-- A valid Active counter record: well-formed, byte-valued fields, tagged
`CounterV1Account`. -/
def CounterV1.valid (r : CounterV1) : Prop :=
  r.wf ∧ r.discriminator = .counterV1Account ∧ r.bump < 256 ∧
    (∀ b ∈ r.owner, b < 256) ∧ (∀ b ∈ r.reserved, b < 256)

instance (r : CounterV1) : Decidable r.valid := by
  unfold CounterV1.valid CounterV1.wf
  infer_instance

/-- `IncrementCountV1Error` (ProgramError wrapper variant omitted: it is
peeled off before the flattening and carries no counter-program logic). -/
inductive IncrementCountV1Error where
  | notEnoughAccounts (expected observed : Nat)
  | ownerMustBeSigner
  | ownerMustBeWritable
  | counterMustBeWriteable
  | counterAddressMismatch
  | counterMustBeOwnedByProgram
  | deserializeError
  | serializeError
  | ownerMismatch
  | serializedSizeMismatch (expected observed : Nat)
deriving DecidableEq

/-- The state an `IncrementCountV1`-style instruction touches: the counter
account's data and its lamports. -/
structure CounterAccountState where
  data : List Nat
  lamports : Nat
deriving DecidableEq

/-- `IncrementCountV1::execute`: deserialize, check the discriminator and
the stored owner, saturating-add 1, re-encode with a defensive size check,
overwrite the buffer. `ownerKey` is the signing owner account's address. -/
def IncrementCountV1.execute (ownerKey : List Nat) (st : CounterAccountState) :
    Except IncrementCountV1Error CounterAccountState :=
  match CounterV1.deserialize st.data with
  | none => .error .deserializeError
  | some s =>
    if s.discriminator ≠ .counterV1Account then .error .deserializeError
    else if s.owner ≠ ownerKey then .error .ownerMismatch
    else
      let s2 := { s with count := saturatingAdd64 s.count 1 }
      let serialized := s2.serialize
      if serialized.length ≠ CounterV1.size then
        .error (.serializedSizeMismatch CounterV1.size serialized.length)
      else .ok { st with data := serialized }

/-- `DecrementCountV1Error`, as `IncrementCountV1Error` minus the
owner-writable check's variant (the decrement validator does not check it). -/
inductive DecrementCountV1Error where
  | notEnoughAccounts (expected observed : Nat)
  | ownerMustBeSigner
  | counterMustBeWriteable
  | counterAddressMismatch
  | counterMustBeOwnedByProgram
  | deserializeError
  | serializeError
  | ownerMismatch
  | serializedSizeMismatch (expected observed : Nat)
deriving DecidableEq

/-- `DecrementCountV1::execute`: as increment, with `saturating_sub(1)`
(`Nat` subtraction is exactly `u64::saturating_sub` on this model). -/
def DecrementCountV1.execute (ownerKey : List Nat) (st : CounterAccountState) :
    Except DecrementCountV1Error CounterAccountState :=
  match CounterV1.deserialize st.data with
  | none => .error .deserializeError
  | some s =>
    if s.discriminator ≠ .counterV1Account then .error .deserializeError
    else if s.owner ≠ ownerKey then .error .ownerMismatch
    else
      let s2 := { s with count := s.count - 1 }
      let serialized := s2.serialize
      if serialized.length ≠ CounterV1.size then
        .error (.serializedSizeMismatch CounterV1.size serialized.length)
      else .ok { st with data := serialized }

/-- `SetCountV1Error` (same variant set as the increment validator). -/
inductive SetCountV1Error where
  | notEnoughAccounts (expected observed : Nat)
  | ownerMustBeSigner
  | ownerMustBeWritable
  | counterMustBeWriteable
  | counterAddressMismatch
  | counterMustBeOwnedByProgram
  | deserializeError
  | serializeError
  | ownerMismatch
  | serializedSizeMismatch (expected observed : Nat)
deriving DecidableEq

/-- `SetCountV1::execute` with `args.count = newCount`. -/
def SetCountV1.execute (ownerKey : List Nat) (newCount : Nat)
    (st : CounterAccountState) : Except SetCountV1Error CounterAccountState :=
  match CounterV1.deserialize st.data with
  | none => .error .deserializeError
  | some s =>
    if s.discriminator ≠ .counterV1Account then .error .deserializeError
    else if s.owner ≠ ownerKey then .error .ownerMismatch
    else
      let s2 := { s with count := newCount }
      let serialized := s2.serialize
      if serialized.length ≠ CounterV1.size then
        .error (.serializedSizeMismatch CounterV1.size serialized.length)
      else .ok { st with data := serialized }

/-- The joint state of the counter storage account and its owner's wallet,
for the lifecycle instructions. -/
structure CounterWorld where
  counterData : List Nat
  counterLamports : Nat
  ownerLamports : Nat
deriving DecidableEq

/-- One primitive mutation `DeactivateCounterV1::execute` performs, in
source order. -/
inductive Effect where
  | writeHeadByte (b : Nat)
  | resizeData (n : Nat)
  | moveToOwner (amount : Nat)
deriving DecidableEq

/-- Apply one primitive mutation to the world. -/
def applyEffect (st : CounterWorld) : Effect → CounterWorld
  | .writeHeadByte b =>
      { st with counterData := match st.counterData with
                               | [] => []
                               | _ :: t => b :: t }
  | .resizeData n => { st with counterData := resizeList st.counterData n }
  | .moveToOwner a =>
      { st with counterLamports := st.counterLamports - a
              , ownerLamports := st.ownerLamports + a }

/-- Apply a sequence of primitive mutations left to right. -/
def applyEffects (es : List Effect) (st : CounterWorld) : CounterWorld :=
  es.foldl applyEffect st

/-- `DeactivateCounterV1Error` (ProgramError wrapper omitted). -/
inductive DeactivateCounterV1Error where
  | notEnoughAccounts (expected observed : Nat)
  | ownerMustBeSigner
  | ownerMustBeWritable
  | counterMustBeWriteable
  | counterAddressMismatch
  | counterMustBeOwnedByProgram
  | systemProgramAddressMismatch
  | deserializeError
  | serializeError
  | ownerMismatch
deriving DecidableEq

/-- The mutation sequence `DeactivateCounterV1::execute` performs, in the
source's order: rewrite the tag byte to Deactivated (255), shrink to 1 byte,
move `lamports − rentMin(1)` (saturating) to the owner. -/
def DeactivateCounterV1.effects (rentMin : Nat → Nat) (st : CounterWorld) :
    List Effect :=
  [.writeHeadByte 255, .resizeData DEACTIVATED_ACCOUNT_SIZE,
   .moveToOwner (st.counterLamports - rentMin DEACTIVATED_ACCOUNT_SIZE)]

/-- `DeactivateCounterV1::execute`: validate the record (discriminator and
stored owner), then emit the ordered mutation sequence. -/
def DeactivateCounterV1.execute (rentMin : Nat → Nat) (signerKey : List Nat)
    (st : CounterWorld) : Except DeactivateCounterV1Error (List Effect) :=
  match CounterV1.deserialize st.counterData with
  | none => .error .deserializeError
  | some s =>
    if s.discriminator ≠ .counterV1Account then .error .deserializeError
    else if s.owner ≠ signerKey then .error .ownerMismatch
    else .ok (DeactivateCounterV1.effects rentMin st)

/-- `DeactivateCounterV1::execute` end to end: the emitted mutations applied
to the world. -/
def DeactivateCounterV1.run (rentMin : Nat → Nat) (signerKey : List Nat)
    (st : CounterWorld) : Except DeactivateCounterV1Error CounterWorld :=
  (DeactivateCounterV1.execute rentMin signerKey st).map (applyEffects · st)

/-- `ReactivateCounterV1Error` (ProgramError wrapper modelled as the one
failure its execute path can hit, the payer-to-counter transfer failing). -/
inductive ReactivateCounterV1Error where
  | notEnoughAccounts (expected observed : Nat)
  | payerMustBeSigner
  | payerMustBeWriteable
  | counterMustBeWriteable
  | counterAddressMismatch (expected observed : List Nat)
  | systemProgramAddressMismatch
  | transferFailed
  | serializedSizeMismatch (expected observed : Nat)
  | accountDiscriminatorError (e : AccountDiscriminatorError)
deriving DecidableEq

/-- `ReactivateCounterV1`: the account-validation discriminator guard
(expected kind Deactivated) followed by `execute`: top up the counter to the
rent-exempt minimum for the full size from the payer (a system transfer,
failing if the payer cannot cover it), grow the account, and write a fresh
record with count 0 and the payer as owner. The payer is the owner wallet of
the world state. -/
def ReactivateCounterV1.run (rentMin : Nat → Nat) (payerKey : List Nat)
    (bump : Nat) (st : CounterWorld) :
    Except ReactivateCounterV1Error CounterWorld :=
  match AccountDiscriminator.check .deactivatedAccount st.counterData with
  | .error e => .error (.accountDiscriminatorError e)
  | .ok _ =>
    let rentExemptMinimumCounter := rentMin CounterV1.size
    let additionalLamportsNeeded := rentExemptMinimumCounter - st.counterLamports
    if 0 < additionalLamportsNeeded ∧ st.ownerLamports < additionalLamportsNeeded then
      .error .transferFailed
    else
      let counterLamports2 := st.counterLamports + additionalLamportsNeeded
      let ownerLamports2 := st.ownerLamports - additionalLamportsNeeded
      let fresh : CounterV1 :=
        { discriminator := .counterV1Account
        , owner := payerKey
        , bump := bump
        , count := 0
        , reserved := List.replicate 31 0 }
      let serialized := fresh.serialize
      if serialized.length ≠ CounterV1.size then
        .error (.serializedSizeMismatch CounterV1.size serialized.length)
      else
        .ok { counterData := serialized
            , counterLamports := counterLamports2
            , ownerLamports := ownerLamports2 }

/-- `InitializeCounterV1Error` (ProgramError wrapper omitted). -/
inductive InitializeCounterV1Error where
  | notEnoughAccounts (expected observed : Nat)
  | payerMustBeSigner
  | counterMustBeWriteable
  | counterAddressMismatch (expected observed : List Nat)
  | counterMustBeEmpty
  | counterMustHaveZeroLamports
  | counterMustBeOwnedBySystemProgram
  | systemProgramAddressMismatch
  | deserializeError
  | serializeError
  | serializedSizeMismatch (expected observed : Nat)
deriving DecidableEq

/-- `InitializeCounterV1Accounts::try_from`: the full validation pipeline for
Initialize, in source order. `derive` is the address deriver
`find_counter_address(program_id, ·)`. -/
def InitializeCounterV1Accounts.tryFrom (derive : List Nat → List Nat × Nat)
    (accounts : List AccountMeta) :
    Except InitializeCounterV1Error (AccountMeta × AccountMeta × Nat) :=
  match accounts with
  | [payer, counter, systemProgram] =>
    if ¬ payer.isSigner then .error .payerMustBeSigner
    else if ¬ counter.isWritable then .error .counterMustBeWriteable
    else
      let (expectedCounter, counterBump) := derive payer.key
      if counter.key ≠ expectedCounter then
        .error (.counterAddressMismatch expectedCounter counter.key)
      else if counter.data ≠ [] then .error .counterMustBeEmpty
      else if counter.lamports > 0 then .error .counterMustHaveZeroLamports
      else if counter.ownerProgram ≠ systemProgramID then
        .error .counterMustBeOwnedBySystemProgram
      else if systemProgram.key ≠ systemProgramID then
        .error .systemProgramAddressMismatch
      else .ok (payer, counter, counterBump)
  | _ => .error (.notEnoughAccounts 3 accounts.length)

/-- The Initialize operation end to end (validation, then the
create-account CPI and the record write of `InitializeCounterV1::execute`),
over the payer and counter accounts. `programId` becomes the new account's
owner program. -/
def InitializeCounterV1.process (derive : List Nat → List Nat × Nat)
    (rentMin : Nat → Nat) (programId : List Nat) (accounts : List AccountMeta) :
    Except InitializeCounterV1Error (List AccountMeta) :=
  match InitializeCounterV1Accounts.tryFrom derive accounts with
  | .error e => .error e
  | .ok (payer, counter, counterBump) =>
    let state : CounterV1 :=
      { discriminator := .counterV1Account
      , owner := payer.key
      , bump := counterBump
      , count := 0
      , reserved := List.replicate 31 0 }
    let serialized := state.serialize
    if serialized.length ≠ CounterV1.size then
      .error (.serializedSizeMismatch CounterV1.size serialized.length)
    else
      .ok [ { payer with lamports := payer.lamports - rentMin CounterV1.size }
          , { counter with data := serialized
                         , lamports := rentMin CounterV1.size
                         , ownerProgram := programId } ]

/-- The Initialize operation with the host's transaction semantics: on any
error nothing is mutated, the account list stays as supplied. -/
def InitializeCounterV1.runOrKeep (derive : List Nat → List Nat × Nat)
    (rentMin : Nat → Nat) (programId : List Nat) (accounts : List AccountMeta) :
    List AccountMeta :=
  match InitializeCounterV1.process derive rentMin programId accounts with
  | .ok accounts2 => accounts2
  | .error _ => accounts

/-- `IncrementCountV1Accounts::try_from`: the validation pipeline for the
mutating count instructions, in source order. -/
def IncrementCountV1Accounts.tryFrom (derive : List Nat → List Nat × Nat)
    (programId : List Nat) (accounts : List AccountMeta) :
    Except IncrementCountV1Error (AccountMeta × AccountMeta × Nat) :=
  match accounts with
  | [owner, counter] =>
    if ¬ owner.isSigner then .error .ownerMustBeSigner
    else if ¬ owner.isWritable then .error .ownerMustBeWritable
    else
      let (counterAddress, counterBump) := derive owner.key
      if ¬ counter.isWritable then .error .counterMustBeWriteable
      else if counter.key ≠ counterAddress then .error .counterAddressMismatch
      else if counter.ownerProgram ≠ programId then
        .error .counterMustBeOwnedByProgram
      else .ok (owner, counter, counterBump)
  | _ => .error (.notEnoughAccounts 2 accounts.length)

/-- The increment validation pipeline stated as the spec states it: the
ordered list of named checks (arity first; a wrong arity is the single
failing check of its list). -/
def incrementChecks (derive : List Nat → List Nat × Nat) (programId : List Nat)
    (accounts : List AccountMeta) : List (NamedCheck IncrementCountV1Error) :=
  match accounts with
  | [owner, counter] =>
    [ ⟨owner.isSigner, .ownerMustBeSigner⟩
    , ⟨owner.isWritable, .ownerMustBeWritable⟩
    , ⟨counter.isWritable, .counterMustBeWriteable⟩
    , ⟨decide (counter.key = (derive owner.key).1), .counterAddressMismatch⟩
    , ⟨decide (counter.ownerProgram = programId), .counterMustBeOwnedByProgram⟩ ]
  | _ => [⟨false, .notEnoughAccounts 2 accounts.length⟩]

end CounterProg

namespace ErrorCode

/-!
The counter program's error flattening (error.rs): each operation owns a
0x100-aligned code block, and inside a block every live error variant is
matched (payloads discarded) to a small local code. The tag types below
have one constructor per match arm of `impl From<InstructionError> for
ProgramError`; the `ProgramError` passthrough arm is peeled off before the
flattening and owns no code.
-/

/-- The variants of `InstructionDiscriminatorError`. -/
inductive InstructionDiscriminatorTag where
  | missingTag
  | invalidTag
deriving DecidableEq

/-- The variants of `InitializeCounterV1Error` the flattening matches. -/
inductive InitializeTag where
  | notEnoughAccounts
  | payerMustBeSigner
  | counterMustBeWriteable
  | counterAddressMismatch
  | counterMustBeEmpty
  | counterMustHaveZeroLamports
  | counterMustBeOwnedBySystemProgram
  | systemProgramAddressMismatch
  | deserializeError
  | serializeError
  | serializedSizeMismatch
deriving DecidableEq

/-- The variants of `DeactivateCounterV1Error` the flattening matches. -/
inductive DeactivateTag where
  | notEnoughAccounts
  | ownerMustBeSigner
  | ownerMustBeWriteable
  | counterMustBeWriteable
  | counterAddressMismatch
  | deserializeError
  | accountDiscriminatorError
deriving DecidableEq

/-- The variants of `IncrementCountV1Error` the flattening matches. -/
inductive IncrementTag where
  | notEnoughAccounts
  | ownerMustBeSigner
  | counterMustBeWriteable
  | counterAddressMismatch
  | deserializeError
  | serializeError
  | serializedSizeMismatch
  | accountDiscriminatorError
deriving DecidableEq

/-- The variants of `DecrementCountV1Error` the flattening matches. -/
inductive DecrementTag where
  | notEnoughAccounts
  | ownerMustBeSigner
  | counterMustBeWriteable
  | counterAddressMismatch
  | deserializeError
  | serializeError
  | serializedSizeMismatch
  | accountDiscriminatorError
deriving DecidableEq

/-- The variants of `SetCountV1Error` the flattening matches. -/
inductive SetCountTag where
  | notEnoughAccounts
  | ownerMustBeSigner
  | counterMustBeWriteable
  | counterAddressMismatch
  | deserializeError
  | serializeError
  | serializedSizeMismatch
  | accountDiscriminatorError
deriving DecidableEq

/-- The variants of `ReactivateCounterV1Error` the flattening matches. -/
inductive ReactivateTag where
  | notEnoughAccounts
  | payerMustBeSigner
  | counterMustBeWriteable
  | counterAddressMismatch
  | systemProgramAddressMismatch
  | deserializeError
  | serializeError
  | serializedSizeMismatch
  | accountDiscriminatorError
deriving DecidableEq

/-- A typed instruction error, as the flattening sees it: the operation and
the variant matched inside that operation's block. -/
inductive InstructionErrorTag where
  | instructionDiscriminator (t : InstructionDiscriminatorTag)
  | initializeCounterV1 (t : InitializeTag)
  | deactivateCounterV1 (t : DeactivateTag)
  | incrementCountV1 (t : IncrementTag)
  | decrementCountV1 (t : DecrementTag)
  | setCountV1 (t : SetCountTag)
  | reactivateCounterV1 (t : ReactivateTag)
deriving DecidableEq

/-- The local code of each `InitializeCounterV1Error` variant. -/
def initializeLocal : InitializeTag → Nat
  | .notEnoughAccounts => 0x01
  | .payerMustBeSigner => 0x02
  | .counterMustBeWriteable => 0x03
  | .counterAddressMismatch => 0x04
  | .counterMustBeEmpty => 0x05
  | .counterMustHaveZeroLamports => 0x06
  | .counterMustBeOwnedBySystemProgram => 0x07
  | .systemProgramAddressMismatch => 0x08
  | .deserializeError => 0x09
  | .serializeError => 0x0a
  | .serializedSizeMismatch => 0x0b

/-- The local code of each `DeactivateCounterV1Error` variant (0x06, 0x07,
0x09 and 0x0a are retired and left unassigned). -/
def deactivateLocal : DeactivateTag → Nat
  | .notEnoughAccounts => 0x01
  | .ownerMustBeSigner => 0x02
  | .ownerMustBeWriteable => 0x03
  | .counterMustBeWriteable => 0x04
  | .counterAddressMismatch => 0x05
  | .deserializeError => 0x08
  | .accountDiscriminatorError => 0x0b

/-- The local code of each `IncrementCountV1Error` variant (0x03, 0x06 and
0x09 are retired and left unassigned). -/
def incrementLocal : IncrementTag → Nat
  | .notEnoughAccounts => 0x01
  | .ownerMustBeSigner => 0x02
  | .counterMustBeWriteable => 0x04
  | .counterAddressMismatch => 0x05
  | .deserializeError => 0x07
  | .serializeError => 0x08
  | .serializedSizeMismatch => 0x0a
  | .accountDiscriminatorError => 0x0b

/-- The local code of each `DecrementCountV1Error` variant (0x03, 0x06 and
0x09 are retired and left unassigned). -/
def decrementLocal : DecrementTag → Nat
  | .notEnoughAccounts => 0x01
  | .ownerMustBeSigner => 0x02
  | .counterMustBeWriteable => 0x04
  | .counterAddressMismatch => 0x05
  | .deserializeError => 0x07
  | .serializeError => 0x08
  | .serializedSizeMismatch => 0x0a
  | .accountDiscriminatorError => 0x0b

/-- The local code of each `SetCountV1Error` variant (0x03, 0x06 and 0x09
are retired and left unassigned). -/
def setCountLocal : SetCountTag → Nat
  | .notEnoughAccounts => 0x01
  | .ownerMustBeSigner => 0x02
  | .counterMustBeWriteable => 0x04
  | .counterAddressMismatch => 0x05
  | .deserializeError => 0x07
  | .serializeError => 0x08
  | .serializedSizeMismatch => 0x0a
  | .accountDiscriminatorError => 0x0b

/-- The local code of each `ReactivateCounterV1Error` variant (0x05 and
0x09 are retired and left unassigned). -/
def reactivateLocal : ReactivateTag → Nat
  | .notEnoughAccounts => 0x01
  | .payerMustBeSigner => 0x02
  | .counterMustBeWriteable => 0x03
  | .counterAddressMismatch => 0x04
  | .systemProgramAddressMismatch => 0x06
  | .deserializeError => 0x07
  | .serializeError => 0x08
  | .serializedSizeMismatch => 0x0a
  | .accountDiscriminatorError => 0x0b

/-- The local code of each `InstructionDiscriminatorError` variant. -/
def instructionDiscriminatorLocal : InstructionDiscriminatorTag → Nat
  | .missingTag => 0x01
  | .invalidTag => 0x02

/-- Each operation's code-block offset (`*_OFFSET` constants). -/
def operationOffset : InstructionErrorTag → Nat
  | .instructionDiscriminator _ => 0x000
  | .initializeCounterV1 _ => 0x100
  | .deactivateCounterV1 _ => 0x200
  | .incrementCountV1 _ => 0x300
  | .decrementCountV1 _ => 0x400
  | .setCountV1 _ => 0x500
  | .reactivateCounterV1 _ => 0x600

/-- The variant's local code inside its operation's block. -/
def localCode : InstructionErrorTag → Nat
  | .instructionDiscriminator t => instructionDiscriminatorLocal t
  | .initializeCounterV1 t => initializeLocal t
  | .deactivateCounterV1 t => deactivateLocal t
  | .incrementCountV1 t => incrementLocal t
  | .decrementCountV1 t => decrementLocal t
  | .setCountV1 t => setCountLocal t
  | .reactivateCounterV1 t => reactivateLocal t

/-- `impl From<InstructionError> for ProgramError` (and the
`InstructionDiscriminatorError` impl): the flat numeric code, offset plus
per-variant local code, exactly as error.rs writes it. -/
def programErrorCode : InstructionErrorTag → Nat
  | .instructionDiscriminator t => 0x000 + instructionDiscriminatorLocal t
  | .initializeCounterV1 t => 0x100 + initializeLocal t
  | .deactivateCounterV1 t => 0x200 + deactivateLocal t
  | .incrementCountV1 t => 0x300 + incrementLocal t
  | .decrementCountV1 t => 0x400 + decrementLocal t
  | .setCountV1 t => 0x500 + setCountLocal t
  | .reactivateCounterV1 t => 0x600 + reactivateLocal t

/-- Every `InitializeTag`. -/
def allInitializeTags : List InitializeTag :=
  [.notEnoughAccounts, .payerMustBeSigner, .counterMustBeWriteable,
   .counterAddressMismatch, .counterMustBeEmpty, .counterMustHaveZeroLamports,
   .counterMustBeOwnedBySystemProgram, .systemProgramAddressMismatch,
   .deserializeError, .serializeError, .serializedSizeMismatch]

/-- Every `DeactivateTag`. -/
def allDeactivateTags : List DeactivateTag :=
  [.notEnoughAccounts, .ownerMustBeSigner, .ownerMustBeWriteable,
   .counterMustBeWriteable, .counterAddressMismatch, .deserializeError,
   .accountDiscriminatorError]

/-- Every `IncrementTag`. -/
def allIncrementTags : List IncrementTag :=
  [.notEnoughAccounts, .ownerMustBeSigner, .counterMustBeWriteable,
   .counterAddressMismatch, .deserializeError, .serializeError,
   .serializedSizeMismatch, .accountDiscriminatorError]

/-- Every `DecrementTag`. -/
def allDecrementTags : List DecrementTag :=
  [.notEnoughAccounts, .ownerMustBeSigner, .counterMustBeWriteable,
   .counterAddressMismatch, .deserializeError, .serializeError,
   .serializedSizeMismatch, .accountDiscriminatorError]

/-- Every `SetCountTag`. -/
def allSetCountTags : List SetCountTag :=
  [.notEnoughAccounts, .ownerMustBeSigner, .counterMustBeWriteable,
   .counterAddressMismatch, .deserializeError, .serializeError,
   .serializedSizeMismatch, .accountDiscriminatorError]

/-- Every `ReactivateTag`. -/
def allReactivateTags : List ReactivateTag :=
  [.notEnoughAccounts, .payerMustBeSigner, .counterMustBeWriteable,
   .counterAddressMismatch, .systemProgramAddressMismatch, .deserializeError,
   .serializeError, .serializedSizeMismatch, .accountDiscriminatorError]

end ErrorCode

namespace VaultProg

/-- `pinocchio_sol_vault_program::AccountDiscriminator`. -/
inductive AccountDiscriminator where
  | vaultV1Account
  | deactivatedAccount
deriving DecidableEq

/-- `impl From<AccountDiscriminator> for u8`. -/
def AccountDiscriminator.toU8 : AccountDiscriminator → Nat
  | .vaultV1Account => 1
  | .deactivatedAccount => 255

/-- `impl TryFrom<u8> for AccountDiscriminator` (the closed tag set {1, 255}). -/
def AccountDiscriminator.fromU8 (byte : Nat) : Option AccountDiscriminator :=
  if byte = 1 then some .vaultV1Account
  else if byte = 255 then some .deactivatedAccount
  else none

/-- `pinocchio_sol_vault_program::AccountDiscriminatorError`. -/
inductive AccountDiscriminatorError where
  | missing
  | discriminatorMismatch (expected observed : AccountDiscriminator)
  | serializedSizeMismatch (expected observed : Nat)
  | invalid (byte : Nat)
deriving DecidableEq

/-- `pinocchio_sol_vault_program::state::VaultV1`:
`[discriminator:1][owner:32][bump:1]`. -/
structure VaultV1 where
  discriminator : AccountDiscriminator
  owner : List Nat
  bump : Nat
deriving DecidableEq

/-- `VAULT_V1_SIZE`: 1 + 32 + 1 = 34 bytes. -/
def VaultV1.size : Nat := 34

/-- The account size implied by a discriminator
(`AccountDiscriminator::expected_account_size`). -/
def AccountDiscriminator.expectedAccountSize : AccountDiscriminator → Nat
  | .vaultV1Account => VaultV1.size
  | .deactivatedAccount => 1

/-- `AccountDiscriminator::check` (vault account_discriminator.rs), same
shape as the counter program's guard. -/
def AccountDiscriminator.check (expected : AccountDiscriminator) (data : List Nat) :
    Except AccountDiscriminatorError Unit :=
  match data.head? with
  | none => .error .missing
  | some b =>
    match AccountDiscriminator.fromU8 b with
    | none => .error (.invalid b)
    | some observed =>
      if observed ≠ expected then
        .error (.discriminatorMismatch expected observed)
      else if data.length ≠ expected.expectedAccountSize then
        .error (.serializedSizeMismatch expected.expectedAccountSize data.length)
      else .ok ()

/-- `VaultV1::to_bytes`. -/
def VaultV1.to_bytes (v : VaultV1) : List Nat :=
  v.discriminator.toU8 :: (v.owner ++ [v.bump])

/-- `VaultV1::from_bytes`: rejects any input whose length differs from
`VaultV1::size()` or whose tag is outside the closed set. -/
def VaultV1.from_bytes (data : List Nat) : Option VaultV1 :=
  if data.length ≠ VaultV1.size then none
  else
    match AccountDiscriminator.fromU8 (data.headD 0) with
    | none => none
    | some d =>
      some { discriminator := d
           , owner := (data.drop 1).take 32
           , bump := (data.drop 33).headD 0 }

/-- A valid Active vault record: 32 owner bytes, byte-valued fields, tagged
`VaultV1Account`. -/
def VaultV1.valid (v : VaultV1) : Prop :=
  v.owner.length = 32 ∧ v.discriminator = .vaultV1Account ∧ v.bump < 256 ∧
    ∀ b ∈ v.owner, b < 256

instance (v : VaultV1) : Decidable v.valid := by
  unfold VaultV1.valid
  infer_instance

/-- `WithdrawV1Error` (the ProgramError wrapper is collapsed to one
variant, `programError`, reachable when `from_bytes` rejects the buffer). -/
inductive WithdrawV1Error where
  | programError
  | notEnoughAccounts (expected observed : Nat)
  | ownerMustBeSigner
  | ownerMustBeWriteable
  | vaultMustBeWriteable
  | vaultAddressMismatch (expected observed : List Nat)
  | vaultMustBeOwnedByProgram
  | accountDiscriminatorError (e : AccountDiscriminatorError)
  | invalidInstructionData
  | ownerMismatch (expected observed : List Nat)
  | insufficientFunds (available requested : Nat)
  | wouldViolateRentMinimum (available requested rentMinimum : Nat)
deriving DecidableEq

/-- The state a withdraw touches: the vault's data buffer and the lamport
balances of the vault and the owner wallet. -/
structure VaultWorld where
  vaultData : List Nat
  vaultLamports : Nat
  ownerLamports : Nat
deriving DecidableEq

/-- `WithdrawV1::execute`: decode the vault record, check the stored owner
against the signer, refuse any amount above `lamports − rentMin(size)`
(saturating), refuse leaving the vault below the rent minimum, then move
the amount from the vault to the owner. -/
def WithdrawV1.execute (rentMin : Nat → Nat) (ownerKey : List Nat)
    (amount : Nat) (st : VaultWorld) : Except WithdrawV1Error VaultWorld :=
  match VaultV1.from_bytes st.vaultData with
  | none => .error .programError
  | some vaultState =>
    if vaultState.owner ≠ ownerKey then
      .error (.ownerMismatch vaultState.owner ownerKey)
    else
      let rentExemptMinimum := rentMin VaultV1.size
      let available := st.vaultLamports - rentExemptMinimum
      if available < amount then .error (.insufficientFunds available amount)
      else
        let remainingAfterWithdraw := st.vaultLamports - amount
        if remainingAfterWithdraw < rentExemptMinimum then
          .error (.wouldViolateRentMinimum available amount rentExemptMinimum)
        else
          .ok { st with vaultLamports := st.vaultLamports - amount
                      , ownerLamports := st.ownerLamports + amount }

/-- The withdraw with the host's transaction semantics: on any error
nothing is mutated. -/
def WithdrawV1.runOrKeep (rentMin : Nat → Nat) (ownerKey : List Nat)
    (amount : Nat) (st : VaultWorld) : VaultWorld :=
  match WithdrawV1.execute rentMin ownerKey amount st with
  | .ok st2 => st2
  | .error _ => st

/-- Whether a withdraw failure is one of the spec's resource errors. -/
def WithdrawV1Error.isResourceError : WithdrawV1Error → Bool
  | .insufficientFunds _ _ => true
  | .wouldViolateRentMinimum _ _ _ => true
  | _ => false

/-- `WithdrawV1Accounts::try_from`: the validation pipeline for withdraw,
in source order, ending with the discriminator guard over the vault data. -/
def WithdrawV1Accounts.tryFrom (derive : List Nat → List Nat × Nat)
    (programId : List Nat) (accounts : List AccountMeta) :
    Except WithdrawV1Error (AccountMeta × AccountMeta × Nat) :=
  match accounts with
  | [owner, vault] =>
    if ¬ owner.isSigner then .error .ownerMustBeSigner
    else if ¬ owner.isWritable then .error .ownerMustBeWriteable
    else if ¬ vault.isWritable then .error .vaultMustBeWriteable
    else
      let (expectedVault, vaultBump) := derive owner.key
      if vault.key ≠ expectedVault then
        .error (.vaultAddressMismatch expectedVault vault.key)
      else if vault.ownerProgram ≠ programId then
        .error .vaultMustBeOwnedByProgram
      else
        match AccountDiscriminator.check .vaultV1Account vault.data with
        | .error e => .error (.accountDiscriminatorError e)
        | .ok _ => .ok (owner, vault, vaultBump)
  | _ => .error (.notEnoughAccounts 2 accounts.length)

/-- The withdraw validation pipeline stated as the spec states it: the
ordered list of named checks, content (discriminator) last. -/
def withdrawChecks (derive : List Nat → List Nat × Nat) (programId : List Nat)
    (accounts : List AccountMeta) : List (NamedCheck WithdrawV1Error) :=
  match accounts with
  | [owner, vault] =>
    [ ⟨owner.isSigner, .ownerMustBeSigner⟩
    , ⟨owner.isWritable, .ownerMustBeWriteable⟩
    , ⟨vault.isWritable, .vaultMustBeWriteable⟩
    , ⟨decide (vault.key = (derive owner.key).1)
      , .vaultAddressMismatch (derive owner.key).1 vault.key⟩
    , ⟨decide (vault.ownerProgram = programId), .vaultMustBeOwnedByProgram⟩
    , ⟨match AccountDiscriminator.check .vaultV1Account vault.data with
       | .ok _ => true
       | .error _ => false
      , match AccountDiscriminator.check .vaultV1Account vault.data with
        | .ok _ => .accountDiscriminatorError .missing
        | .error e => .accountDiscriminatorError e⟩ ]
  | _ => [⟨false, .notEnoughAccounts 2 accounts.length⟩]

end VaultProg

/-! ## Helper lemmas -/

theorem leBytes_roundTrip (n : Nat) (h : n < U64_MOD) :
    leBytesToU64 (u64ToLeBytes n) = n := by
  simp only [u64ToLeBytes, leBytesToU64, U64_MOD] at *
  omega

theorem u64ToLeBytes_length (n : Nat) : (u64ToLeBytes n).length = 8 := by
  simp [u64ToLeBytes]

theorem le_saturatingAdd64_one (a : Nat) (h : a < U64_MOD) :
    a ≤ saturatingAdd64 a 1 := by
  simp only [U64_MOD] at h
  simp only [saturatingAdd64, U64_MAX, Nat.min_def]
  split_ifs <;> omega

theorem saturatingAdd64_one_max : saturatingAdd64 U64_MAX 1 = U64_MAX := by
  simp only [saturatingAdd64, U64_MAX, Nat.min_def]
  split_ifs <;> omega

theorem saturatingAdd64_one_of_ne (a : Nat) (h : a < U64_MOD) (hne : a ≠ U64_MAX) :
    saturatingAdd64 a 1 = a + 1 := by
  simp only [saturatingAdd64, U64_MAX, Nat.min_def, U64_MOD] at *
  split_ifs <;> omega

theorem saturatingAdd64_one_lt_mod (a : Nat) : saturatingAdd64 a 1 < U64_MOD := by
  simp only [saturatingAdd64, U64_MAX, Nat.min_def, U64_MOD]
  split_ifs <;> omega

namespace CounterProg

theorem AccountDiscriminator.fromU8_toU8 (d : AccountDiscriminator) :
    AccountDiscriminator.fromU8 d.toU8 = some d := by
  cases d <;> simp [AccountDiscriminator.fromU8, AccountDiscriminator.toU8]

theorem CounterV1.serialize_length (r : CounterV1) (ho : r.owner.length = 32)
    (hr : r.reserved.length = 31) : r.serialize.length = CounterV1.size := by
  simp [CounterV1.serialize, CounterV1.size, u64ToLeBytes, ho, hr]

theorem CounterV1.deserialize_serialize (r : CounterV1) (ho : r.owner.length = 32)
    (hr : r.reserved.length = 31) (hc : r.count < U64_MOD) :
    CounterV1.deserialize r.serialize = some r := by
  have hlen := CounterV1.serialize_length r ho hr
  have hcb : (u64ToLeBytes r.count).length = 8 := u64ToLeBytes_length r.count
  simp only [CounterV1.deserialize, hlen, CounterV1.size, Nat.lt_irrefl, if_false]
  simp only [CounterV1.serialize, List.headD_cons, AccountDiscriminator.fromU8_toU8]
  have hdrop1 : (r.discriminator.toU8 :: (r.owner ++ r.bump :: (u64ToLeBytes r.count ++ r.reserved))).drop 1
      = r.owner ++ r.bump :: (u64ToLeBytes r.count ++ r.reserved) := rfl
  have hdrop33 : (r.discriminator.toU8 :: (r.owner ++ r.bump :: (u64ToLeBytes r.count ++ r.reserved))).drop 33
      = r.bump :: (u64ToLeBytes r.count ++ r.reserved) := by
    have h33 : (33 : Nat) = (1 + 32) := rfl
    rw [h33, ← List.drop_drop, hdrop1, List.drop_left' ho]
  have hdrop34 : (r.discriminator.toU8 :: (r.owner ++ r.bump :: (u64ToLeBytes r.count ++ r.reserved))).drop 34
      = u64ToLeBytes r.count ++ r.reserved := by
    have h34 : (34 : Nat) = (33 + 1) := rfl
    rw [h34, ← List.drop_drop, hdrop33, List.drop_one, List.tail_cons]
  have hdrop42 : (r.discriminator.toU8 :: (r.owner ++ r.bump :: (u64ToLeBytes r.count ++ r.reserved))).drop 42
      = r.reserved := by
    have h42 : (42 : Nat) = (34 + 8) := rfl
    rw [h42, ← List.drop_drop, hdrop34, List.drop_left' hcb]
  rw [hdrop1, hdrop33, hdrop34, hdrop42]
  simp [List.take_left' ho, List.take_left' hcb, leBytes_roundTrip r.count hc,
    List.take_of_length_le (le_of_eq hr)]

end CounterProg

namespace VaultProg

theorem AccountDiscriminator.vault_fromU8_toU8 (d : AccountDiscriminator) :
    AccountDiscriminator.fromU8 d.toU8 = some d := by
  cases d <;> simp [AccountDiscriminator.fromU8, AccountDiscriminator.toU8]

theorem VaultV1.to_bytes_length (v : VaultV1) (ho : v.owner.length = 32) :
    v.to_bytes.length = VaultV1.size := by
  simp [VaultV1.to_bytes, VaultV1.size, ho]

theorem VaultV1.from_bytes_to_bytes (v : VaultV1) (ho : v.owner.length = 32) :
    VaultV1.from_bytes v.to_bytes = some v := by
  have hlen := VaultV1.to_bytes_length v ho
  simp only [VaultV1.from_bytes, hlen, ne_eq, not_true_eq_false, if_false]
  simp only [VaultV1.to_bytes, List.headD_cons, AccountDiscriminator.vault_fromU8_toU8]
  have hdrop1 : (v.discriminator.toU8 :: (v.owner ++ [v.bump])).drop 1
      = v.owner ++ [v.bump] := rfl
  have hdrop33 : (v.discriminator.toU8 :: (v.owner ++ [v.bump])).drop 33
      = [v.bump] := by
    have h33 : (33 : Nat) = (1 + 32) := rfl
    rw [h33, ← List.drop_drop, hdrop1, List.drop_left' ho]
  rw [hdrop1, hdrop33]
  simp [List.take_left' ho]

end VaultProg

namespace CounterProg

theorem AccountDiscriminator.toU8_inj (d d2 : AccountDiscriminator) :
    d.toU8 = d2.toU8 ↔ d = d2 := by
  cases d <;> cases d2 <;> simp [AccountDiscriminator.toU8]

theorem AccountDiscriminator.fromU8_eq_some (b : Nat) (d : AccountDiscriminator) :
    AccountDiscriminator.fromU8 b = some d ↔ b = d.toU8 := by
  cases d <;> simp only [AccountDiscriminator.fromU8, AccountDiscriminator.toU8] <;>
    split_ifs <;> simp_all

theorem AccountDiscriminator.fromU8_eq_none (b : Nat) :
    AccountDiscriminator.fromU8 b = none ↔ b ≠ 1 ∧ b ≠ 255 := by
  simp only [AccountDiscriminator.fromU8]
  split_ifs <;> simp_all

theorem check_characterization (expected : AccountDiscriminator) (data : List Nat) :
    (AccountDiscriminator.check expected data = .error .missing ↔ data = []) ∧
    (∀ b2, AccountDiscriminator.check expected data = .error (.invalid b2) ↔
      data.head? = some b2 ∧ b2 ≠ 1 ∧ b2 ≠ 255) ∧
    (∀ e obs, AccountDiscriminator.check expected data =
        .error (.discriminatorMismatch e obs) ↔
      e = expected ∧ data.head? = some obs.toU8 ∧ obs ≠ expected) ∧
    (∀ e2 o2, AccountDiscriminator.check expected data =
        .error (.serializedSizeMismatch e2 o2) ↔
      data.head? = some expected.toU8 ∧ e2 = expected.expectedAccountSize ∧
      o2 = data.length ∧ data.length ≠ expected.expectedAccountSize) ∧
    (AccountDiscriminator.check expected data = .ok () ↔
      data.head? = some expected.toU8 ∧
        data.length = expected.expectedAccountSize) := by
  cases data with
  | nil =>
    refine ⟨?_, fun b2 => ?_, fun e obs => ?_, fun e2 o2 => ?_, ?_⟩ <;>
      simp [AccountDiscriminator.check]
  | cons b rest =>
    rcases h : AccountDiscriminator.fromU8 b with _ | obs
    · have hb := (AccountDiscriminator.fromU8_eq_none b).1 h
      refine ⟨?_, fun b2 => ?_, fun e obs2 => ?_, fun e2 o2 => ?_, ?_⟩ <;>
        · simp only [AccountDiscriminator.check, List.head?_cons, h]
          first
          | (cases obs2 <;> simp_all [AccountDiscriminator.toU8] <;> (try omega) <;>
                  (try exact eq_comm))
          | (cases expected <;> simp_all [AccountDiscriminator.toU8] <;> (try omega) <;>
                  (try exact eq_comm))
    · have hb := (AccountDiscriminator.fromU8_eq_some b obs).1 h
      by_cases hoe : obs = expected
      · subst hoe hb
        refine ⟨?_, fun b2 => ?_, fun e obs2 => ?_, fun e2 o2 => ?_, ?_⟩ <;>
          · simp only [AccountDiscriminator.check, List.head?_cons, h, ne_eq,
              not_true_eq_false, if_false]
            split_ifs with hlen <;>
              first
              | (cases obs2 <;> cases obs <;>
                  simp_all [AccountDiscriminator.toU8, AccountDiscriminator.toU8_inj] <;>
                  (try omega) <;> (try exact eq_comm))
              | (cases obs <;> simp_all [AccountDiscriminator.toU8] <;> (try omega) <;>
                  (try exact eq_comm))
      · subst hb
        refine ⟨?_, fun b2 => ?_, fun e obs2 => ?_, fun e2 o2 => ?_, ?_⟩ <;>
          · simp only [AccountDiscriminator.check, List.head?_cons, h, ne_eq, hoe,
              not_false_eq_true, if_true]
            first
            | (cases obs2 <;> cases obs <;> cases expected <;>
                simp_all [AccountDiscriminator.toU8] <;> (try omega) <;>
                  (try exact eq_comm))
            | (cases obs <;> cases expected <;> simp_all [AccountDiscriminator.toU8] <;> (try omega) <;>
                  (try exact eq_comm))

theorem DeactivateCounterV1.run_ok (rentMin : Nat → Nat) (r : CounterV1)
    (st : CounterWorld) (ho : r.owner.length = 32)
    (hres : r.reserved.length = 31) (hc : r.count < U64_MOD)
    (hd : r.discriminator = .counterV1Account)
    (hdata : st.counterData = r.serialize)
    (hl : rentMin DEACTIVATED_ACCOUNT_SIZE ≤ st.counterLamports) :
    DeactivateCounterV1.run rentMin r.owner st =
      .ok { counterData := [255]
          , counterLamports := rentMin DEACTIVATED_ACCOUNT_SIZE
          , ownerLamports := st.ownerLamports +
              (st.counterLamports - rentMin DEACTIVATED_ACCOUNT_SIZE) } := by
  have hround := CounterV1.deserialize_serialize r ho hres hc
  have htaillen : (r.owner ++ r.bump :: (u64ToLeBytes r.count ++ r.reserved)).length
      = 72 := by
    simp [ho, u64ToLeBytes_length, hres]
  have htail : st.counterData =
      r.discriminator.toU8 ::
        (r.owner ++ r.bump :: (u64ToLeBytes r.count ++ r.reserved)) := hdata
  have hds2 : CounterV1.deserialize
      (AccountDiscriminator.counterV1Account.toU8 ::
        (r.owner ++ r.bump :: (u64ToLeBytes r.count ++ r.reserved))) = some r := by
    rw [← hd]
    exact hround
  simp only [DeactivateCounterV1.run, DeactivateCounterV1.execute, hds2, hd,
    ne_eq, not_true_eq_false, if_false, ite_not, if_true, Except.map,
    DeactivateCounterV1.effects, applyEffects, List.foldl_cons, List.foldl_nil,
    applyEffect, htail, resizeList, DEACTIVATED_ACCOUNT_SIZE]
  rw [if_pos (by simp [htaillen])]
  have hlam : st.counterLamports - (st.counterLamports - rentMin 1) =
      rentMin 1 := by
    simp only [DEACTIVATED_ACCOUNT_SIZE] at hl
    omega
  rw [hlam]
  simp

end CounterProg

namespace VaultProg

theorem AccountDiscriminator.vault_toU8_inj (d d2 : AccountDiscriminator) :
    d.toU8 = d2.toU8 ↔ d = d2 := by
  cases d <;> cases d2 <;> simp [AccountDiscriminator.toU8]

theorem AccountDiscriminator.vault_fromU8_eq_some (b : Nat) (d : AccountDiscriminator) :
    AccountDiscriminator.fromU8 b = some d ↔ b = d.toU8 := by
  cases d <;> simp only [AccountDiscriminator.fromU8, AccountDiscriminator.toU8] <;>
    split_ifs <;> simp_all

theorem AccountDiscriminator.vault_fromU8_eq_none (b : Nat) :
    AccountDiscriminator.fromU8 b = none ↔ b ≠ 1 ∧ b ≠ 255 := by
  simp only [AccountDiscriminator.fromU8]
  split_ifs <;> simp_all

theorem vault_check_characterization (expected : AccountDiscriminator) (data : List Nat) :
    (AccountDiscriminator.check expected data = .error .missing ↔ data = []) ∧
    (∀ b2, AccountDiscriminator.check expected data = .error (.invalid b2) ↔
      data.head? = some b2 ∧ b2 ≠ 1 ∧ b2 ≠ 255) ∧
    (∀ e obs, AccountDiscriminator.check expected data =
        .error (.discriminatorMismatch e obs) ↔
      e = expected ∧ data.head? = some obs.toU8 ∧ obs ≠ expected) ∧
    (∀ e2 o2, AccountDiscriminator.check expected data =
        .error (.serializedSizeMismatch e2 o2) ↔
      data.head? = some expected.toU8 ∧ e2 = expected.expectedAccountSize ∧
      o2 = data.length ∧ data.length ≠ expected.expectedAccountSize) ∧
    (AccountDiscriminator.check expected data = .ok () ↔
      data.head? = some expected.toU8 ∧
        data.length = expected.expectedAccountSize) := by
  cases data with
  | nil =>
    refine ⟨?_, fun b2 => ?_, fun e obs => ?_, fun e2 o2 => ?_, ?_⟩ <;>
      simp [AccountDiscriminator.check]
  | cons b rest =>
    rcases h : AccountDiscriminator.fromU8 b with _ | obs
    · have hb := (AccountDiscriminator.vault_fromU8_eq_none b).1 h
      refine ⟨?_, fun b2 => ?_, fun e obs2 => ?_, fun e2 o2 => ?_, ?_⟩ <;>
        · simp only [AccountDiscriminator.check, List.head?_cons, h]
          first
          | (cases obs2 <;> simp_all [AccountDiscriminator.toU8] <;> (try omega) <;>
                  (try exact eq_comm))
          | (cases expected <;> simp_all [AccountDiscriminator.toU8] <;> (try omega) <;>
                  (try exact eq_comm))
    · have hb := (AccountDiscriminator.vault_fromU8_eq_some b obs).1 h
      by_cases hoe : obs = expected
      · subst hoe hb
        refine ⟨?_, fun b2 => ?_, fun e obs2 => ?_, fun e2 o2 => ?_, ?_⟩ <;>
          · simp only [AccountDiscriminator.check, List.head?_cons, h, ne_eq,
              not_true_eq_false, if_false]
            split_ifs with hlen <;>
              first
              | (cases obs2 <;> cases obs <;>
                  simp_all [AccountDiscriminator.toU8, AccountDiscriminator.vault_toU8_inj] <;>
                  (try omega) <;> (try exact eq_comm))
              | (cases obs <;> simp_all [AccountDiscriminator.toU8] <;> (try omega) <;>
                  (try exact eq_comm))
      · subst hb
        refine ⟨?_, fun b2 => ?_, fun e obs2 => ?_, fun e2 o2 => ?_, ?_⟩ <;>
          · simp only [AccountDiscriminator.check, List.head?_cons, h, ne_eq, hoe,
              not_false_eq_true, if_true]
            first
            | (cases obs2 <;> cases obs <;> cases expected <;>
                simp_all [AccountDiscriminator.toU8] <;> (try omega) <;>
                  (try exact eq_comm))
            | (cases obs <;> cases expected <;> simp_all [AccountDiscriminator.toU8] <;> (try omega) <;>
                  (try exact eq_comm))

end VaultProg

/-! ## Claim theorems -/

/-- C1: for every valid Counter record and every valid Vault record,
decoding the encoding returns the same record, and the encoding is exactly
`size` bytes (73 for Counter, 34 for Vault). -/
theorem c1_codec_roundTrip (r : CounterProg.CounterV1) (v : VaultProg.VaultV1)
    (hr : r.valid) (hv : v.valid) :
    (CounterProg.CounterV1.deserialize r.serialize = some r ∧
      r.serialize.length = CounterProg.CounterV1.size) ∧
    (VaultProg.VaultV1.from_bytes v.to_bytes = some v ∧
      v.to_bytes.length = VaultProg.VaultV1.size) := by
  obtain ⟨⟨ho, hres, hc⟩, -, -, -, -⟩ := hr
  obtain ⟨hvo, -, -, -⟩ := hv
  exact ⟨⟨CounterProg.CounterV1.deserialize_serialize r ho hres hc,
          CounterProg.CounterV1.serialize_length r ho hres⟩,
         ⟨VaultProg.VaultV1.from_bytes_to_bytes v hvo,
          VaultProg.VaultV1.to_bytes_length v hvo⟩⟩

/-- Witness for C1 at a concrete Counter record and a concrete Vault
record. -/
theorem c1_codec_roundTrip_witness :
    CounterProg.CounterV1.valid
        ⟨.counterV1Account, List.replicate 32 7, 3, 42, List.replicate 31 0⟩ ∧
    VaultProg.VaultV1.valid ⟨.vaultV1Account, List.replicate 32 9, 5⟩ ∧
    CounterProg.CounterV1.deserialize
        (CounterProg.CounterV1.serialize
          ⟨.counterV1Account, List.replicate 32 7, 3, 42, List.replicate 31 0⟩) =
      some ⟨.counterV1Account, List.replicate 32 7, 3, 42, List.replicate 31 0⟩ ∧
    VaultProg.VaultV1.from_bytes
        (VaultProg.VaultV1.to_bytes ⟨.vaultV1Account, List.replicate 32 9, 5⟩) =
      some ⟨.vaultV1Account, List.replicate 32 9, 5⟩ :=
  have h := c1_codec_roundTrip
    ⟨.counterV1Account, List.replicate 32 7, 3, 42, List.replicate 31 0⟩
    ⟨.vaultV1Account, List.replicate 32 9, 5⟩ (by decide) (by decide)
  ⟨by decide, by decide, h.1.1, h.2.1⟩

/-- C3: for both programs' Discriminator Guards, `check(expected, buffer)`
fails `Missing` exactly on the empty buffer, `Invalid(b)` exactly when the
leading byte `b` is outside the closed set {1, 255}, `Mismatch` exactly
when the leading byte is the tag of a valid kind other than the expected
one, `SizeMismatch` exactly when the tag matches but the buffer length is
not the expected kind's fixed size, and returns Ok otherwise. -/
theorem c3_discriminator_guard :
    (∀ (expected : CounterProg.AccountDiscriminator) (data : List Nat),
      (CounterProg.AccountDiscriminator.check expected data = .error .missing ↔
        data = []) ∧
      (∀ b2, CounterProg.AccountDiscriminator.check expected data =
          .error (.invalid b2) ↔ data.head? = some b2 ∧ b2 ≠ 1 ∧ b2 ≠ 255) ∧
      (∀ e obs, CounterProg.AccountDiscriminator.check expected data =
          .error (.discriminatorMismatch e obs) ↔
        e = expected ∧ data.head? = some obs.toU8 ∧ obs ≠ expected) ∧
      (∀ e2 o2, CounterProg.AccountDiscriminator.check expected data =
          .error (.serializedSizeMismatch e2 o2) ↔
        data.head? = some expected.toU8 ∧ e2 = expected.expectedAccountSize ∧
        o2 = data.length ∧ data.length ≠ expected.expectedAccountSize) ∧
      (CounterProg.AccountDiscriminator.check expected data = .ok () ↔
        data.head? = some expected.toU8 ∧
          data.length = expected.expectedAccountSize)) ∧
    (∀ (expected : VaultProg.AccountDiscriminator) (data : List Nat),
      (VaultProg.AccountDiscriminator.check expected data = .error .missing ↔
        data = []) ∧
      (∀ b2, VaultProg.AccountDiscriminator.check expected data =
          .error (.invalid b2) ↔ data.head? = some b2 ∧ b2 ≠ 1 ∧ b2 ≠ 255) ∧
      (∀ e obs, VaultProg.AccountDiscriminator.check expected data =
          .error (.discriminatorMismatch e obs) ↔
        e = expected ∧ data.head? = some obs.toU8 ∧ obs ≠ expected) ∧
      (∀ e2 o2, VaultProg.AccountDiscriminator.check expected data =
          .error (.serializedSizeMismatch e2 o2) ↔
        data.head? = some expected.toU8 ∧ e2 = expected.expectedAccountSize ∧
        o2 = data.length ∧ data.length ≠ expected.expectedAccountSize) ∧
      (VaultProg.AccountDiscriminator.check expected data = .ok () ↔
        data.head? = some expected.toU8 ∧
          data.length = expected.expectedAccountSize)) :=
  ⟨CounterProg.check_characterization, VaultProg.vault_check_characterization⟩

/-- C2: on an Active counter, IncrementCountV1 yields a count that is at
least the old count, equal to `count + 1` unless the count was `u64::MAX`
where it stays `u64::MAX`; symmetrically DecrementCountV1 yields
`count - 1` unless the count was 0 where it stays 0 — saturating
arithmetic, never an overflow or underflow error. -/
theorem c2_saturating_counts (r : CounterProg.CounterV1)
    (st : CounterProg.CounterAccountState) (hv : r.valid)
    (hst : st.data = r.serialize) :
    (∃ st2 r2, CounterProg.IncrementCountV1.execute r.owner st = .ok st2 ∧
       CounterProg.CounterV1.deserialize st2.data = some r2 ∧
       r.count ≤ r2.count ∧
       (r.count = U64_MAX → r2.count = U64_MAX) ∧
       (r.count ≠ U64_MAX → r2.count = r.count + 1)) ∧
    (∃ st2 r2, CounterProg.DecrementCountV1.execute r.owner st = .ok st2 ∧
       CounterProg.CounterV1.deserialize st2.data = some r2 ∧
       r2.count ≤ r.count ∧
       (r.count = 0 → r2.count = 0) ∧
       (r.count ≠ 0 → r2.count = r.count - 1)) := by
  obtain ⟨⟨ho, hres, hc⟩, hd, -, -, -⟩ := hv
  have hround := CounterProg.CounterV1.deserialize_serialize r ho hres hc
  constructor
  · have hsat := saturatingAdd64_one_lt_mod r.count
    have hsl2 := CounterProg.CounterV1.serialize_length
      ⟨.counterV1Account, r.owner, r.bump, saturatingAdd64 r.count 1, r.reserved⟩
      ho hres
    refine ⟨⟨CounterProg.CounterV1.serialize
        ⟨.counterV1Account, r.owner, r.bump, saturatingAdd64 r.count 1, r.reserved⟩,
        st.lamports⟩,
      ⟨.counterV1Account, r.owner, r.bump, saturatingAdd64 r.count 1, r.reserved⟩,
      ?_, ?_, ?_, ?_, ?_⟩
    · simp [CounterProg.IncrementCountV1.execute, hst, hround, hd, hsl2]
    · exact CounterProg.CounterV1.deserialize_serialize _ ho hres hsat
    · exact le_saturatingAdd64_one r.count hc
    · intro hmax
      show saturatingAdd64 r.count 1 = U64_MAX
      rw [hmax, saturatingAdd64_one_max]
    · intro hne
      exact saturatingAdd64_one_of_ne r.count hc hne
  · have hsub : r.count - 1 < U64_MOD := by
      simp only [U64_MOD] at *
      omega
    have hsl2 := CounterProg.CounterV1.serialize_length
      ⟨.counterV1Account, r.owner, r.bump, r.count - 1, r.reserved⟩ ho hres
    refine ⟨⟨CounterProg.CounterV1.serialize
        ⟨.counterV1Account, r.owner, r.bump, r.count - 1, r.reserved⟩,
        st.lamports⟩,
      ⟨.counterV1Account, r.owner, r.bump, r.count - 1, r.reserved⟩,
      ?_, ?_, ?_, ?_, ?_⟩
    · simp [CounterProg.DecrementCountV1.execute, hst, hround, hd, hsl2]
    · exact CounterProg.CounterV1.deserialize_serialize _ ho hres hsub
    · exact Nat.sub_le r.count 1
    · intro h0
      show r.count - 1 = 0
      omega
    · intro hne
      rfl

/-- Witness for C2 at a concrete Active counter with count 41. -/
theorem c2_saturating_counts_witness :
    CounterProg.CounterV1.valid
        ⟨.counterV1Account, List.replicate 32 7, 3, 41, List.replicate 31 0⟩ ∧
    (∃ st2 r2,
      CounterProg.IncrementCountV1.execute (List.replicate 32 7)
          ⟨CounterProg.CounterV1.serialize
            ⟨.counterV1Account, List.replicate 32 7, 3, 41, List.replicate 31 0⟩,
           1000⟩ = .ok st2 ∧
      CounterProg.CounterV1.deserialize st2.data = some r2 ∧
      (41 : Nat) ≤ r2.count ∧
      ((41 : Nat) = U64_MAX → r2.count = U64_MAX) ∧
      ((41 : Nat) ≠ U64_MAX → r2.count = 41 + 1)) :=
  have h := c2_saturating_counts
    ⟨.counterV1Account, List.replicate 32 7, 3, 41, List.replicate 31 0⟩
    ⟨CounterProg.CounterV1.serialize
      ⟨.counterV1Account, List.replicate 32 7, 3, 41, List.replicate 31 0⟩,
     1000⟩ (by decide) rfl
  ⟨by decide, h.1⟩

/-- C10: a successful IncrementCountV1, DecrementCountV1 or SetCountV1
execution on an Active counter record changes only the count field: the
resulting data decodes to the same record with only `count` updated (so
discriminator, owner, bump and reserved bytes are unchanged), the data
length is unchanged, and the lamport balance is unchanged. -/
theorem c10_mutations_frame (r : CounterProg.CounterV1)
    (st : CounterProg.CounterAccountState) (newCount : Nat) (hv : r.valid)
    (hnc : newCount < U64_MOD) (hst : st.data = r.serialize) :
    (∀ k st2, CounterProg.IncrementCountV1.execute k st = .ok st2 →
       CounterProg.CounterV1.deserialize st2.data =
           some { r with count := saturatingAdd64 r.count 1 } ∧
         st2.data.length = st.data.length ∧ st2.lamports = st.lamports) ∧
    (∀ k st2, CounterProg.DecrementCountV1.execute k st = .ok st2 →
       CounterProg.CounterV1.deserialize st2.data =
           some { r with count := r.count - 1 } ∧
         st2.data.length = st.data.length ∧ st2.lamports = st.lamports) ∧
    (∀ k st2, CounterProg.SetCountV1.execute k newCount st = .ok st2 →
       CounterProg.CounterV1.deserialize st2.data =
           some { r with count := newCount } ∧
         st2.data.length = st.data.length ∧ st2.lamports = st.lamports) := by
  obtain ⟨⟨ho, hres, hc⟩, hd, -, -, -⟩ := hv
  have hround := CounterProg.CounterV1.deserialize_serialize r ho hres hc
  have hsat := saturatingAdd64_one_lt_mod r.count
  have hlen := CounterProg.CounterV1.serialize_length r ho hres
  refine ⟨fun k st2 hex => ?_, fun k st2 hex => ?_, fun k st2 hex => ?_⟩
  · have hsl2 := CounterProg.CounterV1.serialize_length
      ⟨.counterV1Account, r.owner, r.bump, saturatingAdd64 r.count 1, r.reserved⟩
      ho hres
    simp only [CounterProg.IncrementCountV1.execute, hst, hround, hd, ne_eq,
      not_true_eq_false, if_false, ite_not, hsl2, not_false_eq_true,
      if_true] at hex
    split_ifs at hex with hks
    simp only [Except.ok.injEq] at hex
    subst hex
    rw [hd]
    exact ⟨CounterProg.CounterV1.deserialize_serialize _ ho hres hsat,
      by simp [hsl2, hst, hlen], rfl⟩
  · have hsub : r.count - 1 < U64_MOD := by
      simp only [U64_MOD] at *
      omega
    have hsl2 := CounterProg.CounterV1.serialize_length
      ⟨.counterV1Account, r.owner, r.bump, r.count - 1, r.reserved⟩ ho hres
    simp only [CounterProg.DecrementCountV1.execute, hst, hround, hd, ne_eq,
      not_true_eq_false, if_false, ite_not, hsl2, not_false_eq_true,
      if_true] at hex
    split_ifs at hex with hks
    simp only [Except.ok.injEq] at hex
    subst hex
    rw [hd]
    exact ⟨CounterProg.CounterV1.deserialize_serialize _ ho hres hsub,
      by simp [hsl2, hst, hlen], rfl⟩
  · have hsl2 := CounterProg.CounterV1.serialize_length
      ⟨.counterV1Account, r.owner, r.bump, newCount, r.reserved⟩ ho hres
    simp only [CounterProg.SetCountV1.execute, hst, hround, hd, ne_eq,
      not_true_eq_false, if_false, ite_not, hsl2, not_false_eq_true,
      if_true] at hex
    split_ifs at hex with hks
    simp only [Except.ok.injEq] at hex
    subst hex
    rw [hd]
    exact ⟨CounterProg.CounterV1.deserialize_serialize _ ho hres hnc,
      by simp [hsl2, hst, hlen], rfl⟩

/-- Witness for C10: a concrete successful increment execution changes only
the count. -/
theorem c10_mutations_frame_witness :
    CounterProg.IncrementCountV1.execute (List.replicate 32 7)
        ⟨CounterProg.CounterV1.serialize
          ⟨.counterV1Account, List.replicate 32 7, 3, 41, List.replicate 31 0⟩,
         1000⟩ =
      .ok ⟨CounterProg.CounterV1.serialize
            ⟨.counterV1Account, List.replicate 32 7, 3, saturatingAdd64 41 1,
             List.replicate 31 0⟩,
           1000⟩ ∧
    CounterProg.CounterV1.deserialize
        (CounterProg.CounterV1.serialize
          ⟨.counterV1Account, List.replicate 32 7, 3, saturatingAdd64 41 1,
           List.replicate 31 0⟩) =
      some { (⟨.counterV1Account, List.replicate 32 7, 3, 41,
               List.replicate 31 0⟩ : CounterProg.CounterV1) with
             count := saturatingAdd64 41 1 } :=
  have h := c10_mutations_frame
    ⟨.counterV1Account, List.replicate 32 7, 3, 41, List.replicate 31 0⟩
    ⟨CounterProg.CounterV1.serialize
      ⟨.counterV1Account, List.replicate 32 7, 3, 41, List.replicate 31 0⟩,
     1000⟩ 0 (by decide) (by decide) rfl
  ⟨rfl,
   (h.1 (List.replicate 32 7)
     ⟨CounterProg.CounterV1.serialize
       ⟨.counterV1Account, List.replicate 32 7, 3, saturatingAdd64 41 1,
        List.replicate 31 0⟩,
      1000⟩ rfl).1⟩

/-- C4 counterexample: an Initialize call whose counter account is
non-empty but whose payer is not a signer fails with `PayerMustBeSigner`,
not with the `CounterMustBeEmpty` ("must be empty") error the claim
promises for every non-empty account. -/
theorem c4_initialize_counterexample :
    (⟨List.replicate 32 3, false, true, systemProgramID, [255], 1⟩ :
        AccountMeta).data ≠ [] ∧
    CounterProg.InitializeCounterV1.process (fun _ => (List.replicate 32 3, 7))
        (fun _ => 10) (List.replicate 32 9)
        [⟨List.replicate 32 2, false, true, systemProgramID, [], 5⟩,
         ⟨List.replicate 32 3, false, true, systemProgramID, [255], 1⟩,
         ⟨systemProgramID, false, false, systemProgramID, [], 0⟩] =
      .error .payerMustBeSigner ∧
    CounterProg.InitializeCounterV1Error.payerMustBeSigner ≠
      CounterProg.InitializeCounterV1Error.counterMustBeEmpty :=
  ⟨by decide, rfl, by decide⟩

/-- C4 (amended): provided the checks that run before the content check
pass — three accounts, the payer a signer, the counter writable, the
counter at the derived address — Initialize on an account with non-empty
data (Active or Deactivated) fails with the `CounterMustBeEmpty` error,
and on that failure nothing is mutated. -/
theorem c4_initialize_must_be_empty (derive : List Nat → List Nat × Nat)
    (rentMin : Nat → Nat) (programId : List Nat)
    (payer counter sys : AccountMeta)
    (hsig : payer.isSigner = true) (hwrit : counter.isWritable = true)
    (haddr : counter.key = (derive payer.key).1) (hdata : counter.data ≠ []) :
    CounterProg.InitializeCounterV1.process derive rentMin programId
        [payer, counter, sys] = .error .counterMustBeEmpty ∧
    CounterProg.InitializeCounterV1.runOrKeep derive rentMin programId
        [payer, counter, sys] = [payer, counter, sys] := by
  have htf : CounterProg.InitializeCounterV1Accounts.tryFrom derive
      [payer, counter, sys] = .error .counterMustBeEmpty := by
    simp [CounterProg.InitializeCounterV1Accounts.tryFrom, hsig, hwrit, haddr,
      hdata]
  refine ⟨?_, ?_⟩
  · simp [CounterProg.InitializeCounterV1.process, htf]
  · simp [CounterProg.InitializeCounterV1.runOrKeep,
      CounterProg.InitializeCounterV1.process, htf]

/-- Witness for the amended C4 at a concrete non-empty (Deactivated-shaped)
counter account. -/
theorem c4_initialize_must_be_empty_witness :
    CounterProg.InitializeCounterV1.process (fun _ => (List.replicate 32 3, 7))
        (fun _ => 10) (List.replicate 32 9)
        [⟨List.replicate 32 2, true, true, systemProgramID, [], 5⟩,
         ⟨List.replicate 32 3, true, true, systemProgramID, [255], 1⟩,
         ⟨systemProgramID, false, false, systemProgramID, [], 0⟩] =
      .error .counterMustBeEmpty ∧
    CounterProg.InitializeCounterV1.runOrKeep (fun _ => (List.replicate 32 3, 7))
        (fun _ => 10) (List.replicate 32 9)
        [⟨List.replicate 32 2, true, true, systemProgramID, [], 5⟩,
         ⟨List.replicate 32 3, true, true, systemProgramID, [255], 1⟩,
         ⟨systemProgramID, false, false, systemProgramID, [], 0⟩] =
      [⟨List.replicate 32 2, true, true, systemProgramID, [], 5⟩,
       ⟨List.replicate 32 3, true, true, systemProgramID, [255], 1⟩,
       ⟨systemProgramID, false, false, systemProgramID, [], 0⟩] :=
  c4_initialize_must_be_empty (fun _ => (List.replicate 32 3, 7)) (fun _ => 10)
    (List.replicate 32 9)
    ⟨List.replicate 32 2, true, true, systemProgramID, [], 5⟩
    ⟨List.replicate 32 3, true, true, systemProgramID, [255], 1⟩
    ⟨systemProgramID, false, false, systemProgramID, [], 0⟩
    rfl rfl (by decide) (by decide)

/-- C5: on an Active counter, DeactivateCounterV1 performs exactly, in this
order: overwrite the leading byte with the Deactivated tag (255), resize to
1 byte, move `lamports − rentMin(1)` to the owner; and after every prefix
of that mutation sequence the account is never simultaneously 1 byte long
and tagged Active (tag byte 1). The full sequence leaves the account as
`[255]` holding exactly `rentMin(1)` lamports, the excess moved to the
owner. -/
theorem c5_deactivate_order (rentMin : Nat → Nat) (r : CounterProg.CounterV1)
    (st : CounterProg.CounterWorld) (hv : r.valid)
    (hdata : st.counterData = r.serialize)
    (hl : rentMin CounterProg.DEACTIVATED_ACCOUNT_SIZE ≤ st.counterLamports) :
    CounterProg.DeactivateCounterV1.execute rentMin r.owner st =
      .ok [.writeHeadByte 255,
           .resizeData CounterProg.DEACTIVATED_ACCOUNT_SIZE,
           .moveToOwner (st.counterLamports -
             rentMin CounterProg.DEACTIVATED_ACCOUNT_SIZE)] ∧
    (∀ k, ¬ ((CounterProg.applyEffects
          ((CounterProg.DeactivateCounterV1.effects rentMin st).take k)
          st).counterData.length = 1 ∧
        (CounterProg.applyEffects
          ((CounterProg.DeactivateCounterV1.effects rentMin st).take k)
          st).counterData.headD 0 = 1)) ∧
    CounterProg.applyEffects (CounterProg.DeactivateCounterV1.effects rentMin st)
        st =
      { counterData := [255]
      , counterLamports := rentMin CounterProg.DEACTIVATED_ACCOUNT_SIZE
      , ownerLamports := st.ownerLamports +
          (st.counterLamports - rentMin CounterProg.DEACTIVATED_ACCOUNT_SIZE) } := by
  obtain ⟨⟨ho, hres, hc⟩, hd, -, -, -⟩ := hv
  have hround := CounterProg.CounterV1.deserialize_serialize r ho hres hc
  have hlen := CounterProg.CounterV1.serialize_length r ho hres
  have hlen73 : st.counterData.length = 73 := by
    rw [hdata, hlen]
    rfl
  have htail : st.counterData =
      r.discriminator.toU8 ::
        (r.owner ++ r.bump :: (u64ToLeBytes r.count ++ r.reserved)) := hdata
  have htaillen : (r.owner ++ r.bump :: (u64ToLeBytes r.count ++ r.reserved)).length
      = 72 := by
    simp [ho, u64ToLeBytes_length, hres]
  refine ⟨?_, ?_, ?_⟩
  · simp [CounterProg.DeactivateCounterV1.execute, hdata, hround, hd,
      CounterProg.DeactivateCounterV1.effects]
  · intro k
    rcases k with _ | _ | _ | k <;>
      simp only [CounterProg.DeactivateCounterV1.effects, List.take_zero,
        List.take_succ_cons, List.take_nil, CounterProg.applyEffects,
        List.foldl_cons, List.foldl_nil, CounterProg.applyEffect, htail,
        resizeList, CounterProg.DEACTIVATED_ACCOUNT_SIZE]
    · intro hcon
      have := hcon.1
      simp [htaillen] at this
    · intro hcon
      have := hcon.1
      simp [htaillen] at this
    · rw [if_pos (by simp [htaillen])]
      intro hcon
      have := hcon.2
      simp at this
    · rw [if_pos (by simp [htaillen])]
      intro hcon
      have := hcon.2
      simp at this
  · simp only [CounterProg.DeactivateCounterV1.effects, CounterProg.applyEffects,
      List.foldl_cons, List.foldl_nil, CounterProg.applyEffect, htail,
      resizeList, CounterProg.DEACTIVATED_ACCOUNT_SIZE]
    rw [if_pos (by simp [htaillen])]
    simp only [List.take_succ_cons, List.take_zero]
    have hlam : st.counterLamports -
        (st.counterLamports - rentMin 1) = rentMin 1 := by
      simp only [CounterProg.DEACTIVATED_ACCOUNT_SIZE] at hl
      omega
    rw [hlam]

/-- Witness for C5 at a concrete Active counter holding 100 lamports with
`rentMin(1) = 6`. -/
theorem c5_deactivate_order_witness :
    CounterProg.DeactivateCounterV1.execute (fun n => n + 5)
        (List.replicate 32 7)
        ⟨CounterProg.CounterV1.serialize
          ⟨.counterV1Account, List.replicate 32 7, 3, 41, List.replicate 31 0⟩,
         100, 50⟩ =
      .ok [.writeHeadByte 255, .resizeData CounterProg.DEACTIVATED_ACCOUNT_SIZE,
           .moveToOwner (100 - (fun n => n + 5) CounterProg.DEACTIVATED_ACCOUNT_SIZE)] ∧
    CounterProg.applyEffects
        (CounterProg.DeactivateCounterV1.effects (fun n => n + 5)
          ⟨CounterProg.CounterV1.serialize
            ⟨.counterV1Account, List.replicate 32 7, 3, 41, List.replicate 31 0⟩,
           100, 50⟩)
        ⟨CounterProg.CounterV1.serialize
          ⟨.counterV1Account, List.replicate 32 7, 3, 41, List.replicate 31 0⟩,
         100, 50⟩ =
      { counterData := [255]
      , counterLamports := (fun n => n + 5) CounterProg.DEACTIVATED_ACCOUNT_SIZE
      , ownerLamports := 50 +
          (100 - (fun n => n + 5) CounterProg.DEACTIVATED_ACCOUNT_SIZE) } :=
  have h := c5_deactivate_order (fun n => n + 5)
    ⟨.counterV1Account, List.replicate 32 7, 3, 41, List.replicate 31 0⟩
    ⟨CounterProg.CounterV1.serialize
      ⟨.counterV1Account, List.replicate 32 7, 3, 41, List.replicate 31 0⟩,
     100, 50⟩ (by decide) rfl (by decide)
  ⟨h.1, h.2.2⟩

/-- C6: Deactivate followed by Reactivate on an Active counter with any
count N (the owner acting as payer) succeeds and yields an Active counter
with count 0 — the pre-deactivation count is not preserved — with data
length restored to the full record size and the storage account's lamports
exactly the rent-exempt minimum for that size. -/
theorem c6_deactivate_reactivate (rentMin : Nat → Nat)
    (r : CounterProg.CounterV1) (st : CounterProg.CounterWorld)
    (hv : r.valid) (hdata : st.counterData = r.serialize)
    (hl : rentMin CounterProg.DEACTIVATED_ACCOUNT_SIZE ≤ st.counterLamports)
    (hmono : rentMin CounterProg.DEACTIVATED_ACCOUNT_SIZE ≤
      rentMin CounterProg.CounterV1.size)
    (hfunds : rentMin CounterProg.CounterV1.size ≤
      st.ownerLamports + st.counterLamports) :
    ∃ st1 st2,
      CounterProg.DeactivateCounterV1.run rentMin r.owner st = .ok st1 ∧
      CounterProg.ReactivateCounterV1.run rentMin r.owner r.bump st1 =
        .ok st2 ∧
      (∃ r2, CounterProg.CounterV1.deserialize st2.counterData = some r2 ∧
        r2.count = 0 ∧ r2.discriminator = .counterV1Account) ∧
      st2.counterData.length = CounterProg.CounterV1.size ∧
      st2.counterLamports = rentMin CounterProg.CounterV1.size := by
  obtain ⟨⟨ho, hres, hc⟩, hd, -, -, -⟩ := hv
  have hrun := CounterProg.DeactivateCounterV1.run_ok rentMin r st ho hres hc
    hd hdata hl
  have hfl := CounterProg.CounterV1.serialize_length
    ⟨.counterV1Account, r.owner, r.bump, 0, List.replicate 31 0⟩ ho
    (by simp)
  have hzero : (0 : Nat) < U64_MOD := by
    simp [U64_MOD]
  refine ⟨_,
    ⟨CounterProg.CounterV1.serialize
      ⟨.counterV1Account, r.owner, r.bump, 0, List.replicate 31 0⟩,
     rentMin CounterProg.DEACTIVATED_ACCOUNT_SIZE +
       (rentMin CounterProg.CounterV1.size -
         rentMin CounterProg.DEACTIVATED_ACCOUNT_SIZE),
     st.ownerLamports +
         (st.counterLamports - rentMin CounterProg.DEACTIVATED_ACCOUNT_SIZE) -
       (rentMin CounterProg.CounterV1.size -
         rentMin CounterProg.DEACTIVATED_ACCOUNT_SIZE)⟩,
    hrun, ?_⟩
  have hcond : ¬ (0 < rentMin CounterProg.CounterV1.size -
        rentMin CounterProg.DEACTIVATED_ACCOUNT_SIZE ∧
      st.ownerLamports +
          (st.counterLamports - rentMin CounterProg.DEACTIVATED_ACCOUNT_SIZE) <
        rentMin CounterProg.CounterV1.size -
          rentMin CounterProg.DEACTIVATED_ACCOUNT_SIZE) := by
    intro hcon
    omega
  refine ⟨?_, ?_, ?_, ?_⟩
  · have hchk : CounterProg.AccountDiscriminator.check .deactivatedAccount
        [255] = .ok () := rfl
    simp only [CounterProg.ReactivateCounterV1.run, hchk]
    rw [if_neg hcond, if_neg (fun hne => hne hfl)]
  · exact ⟨⟨.counterV1Account, r.owner, r.bump, 0, List.replicate 31 0⟩,
      CounterProg.CounterV1.deserialize_serialize _ ho (by simp) hzero,
      rfl, rfl⟩
  · exact hfl
  · show rentMin CounterProg.DEACTIVATED_ACCOUNT_SIZE +
      (rentMin CounterProg.CounterV1.size -
        rentMin CounterProg.DEACTIVATED_ACCOUNT_SIZE) =
      rentMin CounterProg.CounterV1.size
    omega

/-- Witness for C6 at a concrete Active counter with count 41, 100 lamports
and `rentMin(n) = n + 5`. -/
theorem c6_deactivate_reactivate_witness :
    ∃ st1 st2,
      CounterProg.DeactivateCounterV1.run (fun n => n + 5)
          (List.replicate 32 7)
          ⟨CounterProg.CounterV1.serialize
            ⟨.counterV1Account, List.replicate 32 7, 3, 41, List.replicate 31 0⟩,
           100, 50⟩ = .ok st1 ∧
      CounterProg.ReactivateCounterV1.run (fun n => n + 5)
          (List.replicate 32 7) 3 st1 = .ok st2 ∧
      (∃ r2, CounterProg.CounterV1.deserialize st2.counterData = some r2 ∧
        r2.count = 0 ∧ r2.discriminator = .counterV1Account) ∧
      st2.counterData.length = CounterProg.CounterV1.size ∧
      st2.counterLamports = (fun n => n + 5) CounterProg.CounterV1.size :=
  c6_deactivate_reactivate (fun n => n + 5)
    ⟨.counterV1Account, List.replicate 32 7, 3, 41, List.replicate 31 0⟩
    ⟨CounterProg.CounterV1.serialize
      ⟨.counterV1Account, List.replicate 32 7, 3, 41, List.replicate 31 0⟩,
     100, 50⟩ (by decide) rfl (by decide) (by decide) (by decide)

/-- C7: every typed instruction error flattens to
`operation offset + local code` with the local code in 0x01–0x0b
(offsets: instruction-discriminator 0x000, Initialize 0x100, Deactivate
0x200, Increment 0x300, Decrement 0x400, SetCount 0x500, Reactivate
0x600); within each operation the live variants map to pairwise distinct
local codes (the listed tags are exhaustive), and the retired variants'
local codes stay unused: 0x06/0x07/0x09/0x0a for Deactivate,
0x03/0x06/0x09 for Increment, Decrement and SetCount, 0x05/0x09 for
Reactivate. -/
theorem c7_error_codes :
    (∀ e : ErrorCode.InstructionErrorTag,
      ErrorCode.programErrorCode e =
          ErrorCode.operationOffset e + ErrorCode.localCode e ∧
        1 ≤ ErrorCode.localCode e ∧ ErrorCode.localCode e ≤ 0x0b) ∧
    (∀ t : ErrorCode.InitializeTag, t ∈ ErrorCode.allInitializeTags) ∧
    (ErrorCode.allInitializeTags.map ErrorCode.initializeLocal).Nodup ∧
    (∀ t : ErrorCode.DeactivateTag, t ∈ ErrorCode.allDeactivateTags) ∧
    (ErrorCode.allDeactivateTags.map ErrorCode.deactivateLocal).Nodup ∧
    (∀ t : ErrorCode.IncrementTag, t ∈ ErrorCode.allIncrementTags) ∧
    (ErrorCode.allIncrementTags.map ErrorCode.incrementLocal).Nodup ∧
    (∀ t : ErrorCode.DecrementTag, t ∈ ErrorCode.allDecrementTags) ∧
    (ErrorCode.allDecrementTags.map ErrorCode.decrementLocal).Nodup ∧
    (∀ t : ErrorCode.SetCountTag, t ∈ ErrorCode.allSetCountTags) ∧
    (ErrorCode.allSetCountTags.map ErrorCode.setCountLocal).Nodup ∧
    (∀ t : ErrorCode.ReactivateTag, t ∈ ErrorCode.allReactivateTags) ∧
    (ErrorCode.allReactivateTags.map ErrorCode.reactivateLocal).Nodup ∧
    (∀ t : ErrorCode.DeactivateTag,
      ErrorCode.deactivateLocal t ≠ 0x06 ∧ ErrorCode.deactivateLocal t ≠ 0x07 ∧
      ErrorCode.deactivateLocal t ≠ 0x09 ∧
      ErrorCode.deactivateLocal t ≠ 0x0a) ∧
    (∀ t : ErrorCode.IncrementTag,
      ErrorCode.incrementLocal t ≠ 0x03 ∧ ErrorCode.incrementLocal t ≠ 0x06 ∧
      ErrorCode.incrementLocal t ≠ 0x09) ∧
    (∀ t : ErrorCode.DecrementTag,
      ErrorCode.decrementLocal t ≠ 0x03 ∧ ErrorCode.decrementLocal t ≠ 0x06 ∧
      ErrorCode.decrementLocal t ≠ 0x09) ∧
    (∀ t : ErrorCode.SetCountTag,
      ErrorCode.setCountLocal t ≠ 0x03 ∧ ErrorCode.setCountLocal t ≠ 0x06 ∧
      ErrorCode.setCountLocal t ≠ 0x09) ∧
    (∀ t : ErrorCode.ReactivateTag,
      ErrorCode.reactivateLocal t ≠ 0x05 ∧
      ErrorCode.reactivateLocal t ≠ 0x09) := by
  refine ⟨?_, ?_, by decide, ?_, by decide, ?_, by decide, ?_, by decide, ?_,
    by decide, ?_, by decide, ?_, ?_, ?_, ?_, ?_⟩
  · intro e
    rcases e with t | t | t | t | t | t | t <;> cases t <;>
      exact ⟨rfl, by decide, by decide⟩
  all_goals intro t
  all_goals cases t <;> decide

/-- C8: the account validators run their checks in the fixed order — arity,
then signer/writable flags, then derived-address comparison, then
account-owner/program comparison, then content (discriminator) — and
return exactly the first failing check's error, with no aggregation: both
the counter increment validator and the vault withdraw validator equal the
first-failure run of their ordered check lists, and a signer failure is
reported even when the address and the content are also wrong. -/
theorem c8_validation_order :
    (∀ (derive : List Nat → List Nat × Nat) (programId : List Nat)
        (accounts : List AccountMeta),
      (CounterProg.IncrementCountV1Accounts.tryFrom derive programId
            accounts).map (fun _ => ()) =
        firstFailure (CounterProg.incrementChecks derive programId accounts)) ∧
    (∀ (derive : List Nat → List Nat × Nat) (programId : List Nat)
        (accounts : List AccountMeta),
      (VaultProg.WithdrawV1Accounts.tryFrom derive programId accounts).map
            (fun _ => ()) =
        firstFailure (VaultProg.withdrawChecks derive programId accounts)) ∧
    (∀ (derive : List Nat → List Nat × Nat) (programId : List Nat)
        (owner vault : AccountMeta),
      owner.isSigner = false →
      VaultProg.WithdrawV1Accounts.tryFrom derive programId [owner, vault] =
        .error .ownerMustBeSigner) := by
  refine ⟨?_, ?_, ?_⟩
  · intro derive programId accounts
    rcases accounts with _ | ⟨a1, _ | ⟨a2, _ | ⟨a3, rest⟩⟩⟩
    · simp [CounterProg.IncrementCountV1Accounts.tryFrom,
        CounterProg.incrementChecks, firstFailure, Except.map]
    · simp [CounterProg.IncrementCountV1Accounts.tryFrom,
        CounterProg.incrementChecks, firstFailure, Except.map]
    · simp only [CounterProg.IncrementCountV1Accounts.tryFrom,
        CounterProg.incrementChecks, Except.map]
      by_cases h1 : a1.isSigner <;> by_cases h2 : a1.isWritable <;>
        by_cases h3 : a2.isWritable <;>
        by_cases h4 : a2.key = (derive a1.key).1 <;>
        by_cases h5 : a2.ownerProgram = programId <;>
        simp [h1, h2, h3, h4, h5, firstFailure]
    · simp [CounterProg.IncrementCountV1Accounts.tryFrom,
        CounterProg.incrementChecks, firstFailure, Except.map]
  · intro derive programId accounts
    rcases accounts with _ | ⟨a1, _ | ⟨a2, _ | ⟨a3, rest⟩⟩⟩
    · simp [VaultProg.WithdrawV1Accounts.tryFrom, VaultProg.withdrawChecks,
        firstFailure, Except.map]
    · simp [VaultProg.WithdrawV1Accounts.tryFrom, VaultProg.withdrawChecks,
        firstFailure, Except.map]
    · simp only [VaultProg.WithdrawV1Accounts.tryFrom,
        VaultProg.withdrawChecks, Except.map]
      rcases hchk : VaultProg.AccountDiscriminator.check .vaultV1Account
          a2.data with e | u <;>
        by_cases h1 : a1.isSigner <;> by_cases h2 : a1.isWritable <;>
          by_cases h3 : a2.isWritable <;>
          by_cases h4 : a2.key = (derive a1.key).1 <;>
          by_cases h5 : a2.ownerProgram = programId <;>
          simp [h1, h2, h3, h4, h5, hchk, firstFailure]
    · simp [VaultProg.WithdrawV1Accounts.tryFrom, VaultProg.withdrawChecks,
        firstFailure, Except.map]
  · intro derive programId owner vault hsig
    simp [VaultProg.WithdrawV1Accounts.tryFrom, hsig]

/-- Witness for C8's signer-priority conjunct: a withdraw whose owner did
not sign, whose vault address is wrong and whose vault data is garbage
still reports `OwnerMustBeSigner`. -/
theorem c8_validation_order_witness :
    VaultProg.WithdrawV1Accounts.tryFrom (fun _ => (List.replicate 32 1, 7))
        (List.replicate 32 9)
        [⟨List.replicate 32 2, false, true, List.replicate 32 9, [], 5⟩,
         ⟨List.replicate 32 3, false, true, List.replicate 32 4, [7, 7], 1⟩] =
      .error .ownerMustBeSigner :=
  c8_validation_order.2.2 (fun _ => (List.replicate 32 1, 7))
    (List.replicate 32 9)
    ⟨List.replicate 32 2, false, true, List.replicate 32 9, [], 5⟩
    ⟨List.replicate 32 3, false, true, List.replicate 32 4, [7, 7], 1⟩ rfl

/-- C9: on an Active vault, WithdrawV1 fails with a resource error
(InsufficientFunds or WouldViolateRentMinimum) whenever the requested
amount exceeds the vault's balance minus the rent-exempt minimum for the
vault's size; on any failure nothing is mutated; on success the vault's
balance decreases by exactly the amount, the owner's increases by exactly
the amount, the vault data is untouched, and the remaining vault balance is
at least the rent-exempt minimum. -/
theorem c9_withdraw_resources (rentMin : Nat → Nat) (v : VaultProg.VaultV1)
    (st : VaultProg.VaultWorld) (amount : Nat) (hv : v.valid)
    (hdata : st.vaultData = v.to_bytes) :
    (st.vaultLamports < rentMin VaultProg.VaultV1.size + amount →
      ∃ e, VaultProg.WithdrawV1.execute rentMin v.owner amount st =
          .error e ∧ e.isResourceError = true) ∧
    (∀ e, VaultProg.WithdrawV1.execute rentMin v.owner amount st =
        .error e →
      VaultProg.WithdrawV1.runOrKeep rentMin v.owner amount st = st) ∧
    (∀ st2, VaultProg.WithdrawV1.execute rentMin v.owner amount st =
        .ok st2 →
      st2.vaultData = st.vaultData ∧
      st2.vaultLamports + amount = st.vaultLamports ∧
      st2.ownerLamports = st.ownerLamports + amount ∧
      rentMin VaultProg.VaultV1.size ≤ st2.vaultLamports) := by
  obtain ⟨ho, -, -, -⟩ := hv
  have hfb : VaultProg.VaultV1.from_bytes st.vaultData = some v := by
    rw [hdata]
    exact VaultProg.VaultV1.from_bytes_to_bytes v ho
  refine ⟨?_, ?_, ?_⟩
  · intro hlow
    by_cases ha : st.vaultLamports - rentMin VaultProg.VaultV1.size < amount
    · refine ⟨.insufficientFunds
        (st.vaultLamports - rentMin VaultProg.VaultV1.size) amount, ?_, rfl⟩
      simp [VaultProg.WithdrawV1.execute, hfb, ha]
    · refine ⟨.wouldViolateRentMinimum
        (st.vaultLamports - rentMin VaultProg.VaultV1.size) amount
        (rentMin VaultProg.VaultV1.size), ?_, rfl⟩
      have hrem : st.vaultLamports - amount < rentMin VaultProg.VaultV1.size :=
        by omega
      simp [VaultProg.WithdrawV1.execute, hfb, ha, hrem]
  · intro e he
    simp [VaultProg.WithdrawV1.runOrKeep, he]
  · intro st2 hex
    simp only [VaultProg.WithdrawV1.execute, hfb, ne_eq, not_true_eq_false,
      if_false, ite_not] at hex
    split_ifs at hex with ha hb
    simp only [Except.ok.injEq] at hex
    subst hex
    refine ⟨rfl, ?_, rfl, ?_⟩
    · show st.vaultLamports - amount + amount = st.vaultLamports
      omega
    · show rentMin VaultProg.VaultV1.size ≤ st.vaultLamports - amount
      omega

/-- Witness for C9 at a concrete vault with 100 lamports,
`rentMin(34) = 34`, and a requested amount of 200. -/
theorem c9_withdraw_resources_witness :
    ∃ e, VaultProg.WithdrawV1.execute (fun n => n) (List.replicate 32 9) 200
        ⟨VaultProg.VaultV1.to_bytes ⟨.vaultV1Account, List.replicate 32 9, 5⟩,
         100, 7⟩ = .error e ∧ e.isResourceError = true :=
  (c9_withdraw_resources (fun n => n)
    ⟨.vaultV1Account, List.replicate 32 9, 5⟩
    ⟨VaultProg.VaultV1.to_bytes ⟨.vaultV1Account, List.replicate 32 9, 5⟩,
     100, 7⟩ 200 (by decide) rfl).1 (by decide)

end Korgs
